import Mathlib

/-!
Verification of the answer-grading and progress-update core of the playex
backend (files playex/services.py, playex/main.py, playex/models.py).

Strings are modelled as lists of characters (`String.data`); the Python
string operations used by the code are embedded character by character:

* `str.lower`     : ASCII case folding, `pyLowerChar` mapped over the list;
* `str.strip`     : `pyStrip`, dropping the whitespace characters of the
                    ASCII fragment of the class matched by the regex \s;
* `re.sub` with pattern \s+ and empty replacement : a filter removing every
                    whitespace character;
* `re.split` with pattern [;,] : `splitDelims`, cutting at every semicolon
                    or comma and keeping empty fragments, as re.split does;
* `re.search` with pattern [;,] : `containsDelim`;
* `str.replace`   : a character map, since both replacement patterns used by
                    the code are single characters.

Python sets of strings are modelled as `Finset String`.  The relational
store is modelled as an explicit record of lists (`DB`); a SQLAlchemy
`select ... where` returning `scalars().first()` becomes `List.find?`, an
UPDATE keyed on the primary-key column becomes a map replacing the matching
row, and a committed transaction is a single state transition.  Integer
columns are non-nullable with non-negative contents, so they are embedded
as `Nat`; the defensive `x or 0` the code applies to them is numerically
the identity there.
-/

namespace Playex

/-- The ASCII whitespace characters: those matched by the regex class \s and
stripped by str.strip (space, tab, newline, carriage return, vertical tab,
form feed). -/
def pyIsSpace (c : Char) : Bool :=
  c = ' ' || c = '\t' || c = '\n' || c = '\r' || c = '\x0b' || c = '\x0c'

/-- ASCII fragment of str.lower, one character at a time: an upper-case
letter (code 65 to 90) is shifted by 32, everything else is unchanged. -/
def pyLowerChar (c : Char) : Char :=
  if 65 ≤ c.toNat ∧ c.toNat ≤ 90 then Char.ofNat (c.toNat + 32) else c

/-- str.strip: drop whitespace characters from both ends. -/
def pyStrip (l : List Char) : List Char :=
  ((l.dropWhile pyIsSpace).reverse.dropWhile pyIsSpace).reverse

/-- re.split with the pattern [;,]: cut the list at every semicolon or
comma.  Empty fragments are kept, exactly as re.split keeps them. -/
def splitDelims (l : List Char) : List (List Char) :=
  match l with
  | [] => [[]]
  | c :: cs =>
    if c = ';' || c = ',' then [] :: splitDelims cs
    else
      match splitDelims cs with
      | [] => [[c]]
      | p :: ps => (c :: p) :: ps

/-- re.search with the pattern [;,]: does the list contain a semicolon or a
comma. -/
def containsDelim (l : List Char) : Bool :=
  l.any (fun c => c = ';' || c = ',')

end Playex

namespace Services

/-- _normalize_answer from playex/services.py:
lower-case the string, delete every whitespace character (re.sub of \s+ by
the empty string), replace every comma by a period, and strip.  The final
strip is kept even though the whitespace was already deleted. -/
def normalize_chars (l : List Char) : List Char :=
  Playex.pyStrip
    (((l.map Playex.pyLowerChar).filter (fun c => !Playex.pyIsSpace c)).map
      (fun c => if c = ',' then '.' else c))

/-- String-level wrapper of `normalize_chars`. -/
def normalize_answer (s : String) : String :=
  ⟨normalize_chars s.data⟩

/-- _answer_to_set from playex/services.py:
split on semicolons and commas, keep the fragments that are not the empty
string (the test `p != ''` runs before normalization, so a blank fragment
is kept and normalizes to the empty string), normalize each and collect
into a set. -/
def answer_to_set (s : String) : Finset String :=
  (((Playex.splitDelims s.data).filter (fun p => !p.isEmpty)).map
    (fun p => (⟨normalize_chars p⟩ : String))).toFinset

/-- The grading expression of check_solution (playex/services.py lines
207-212): set comparison when the stored answer contains a semicolon or a
comma, single-value comparison of normalized strings otherwise. -/
def grade (stored submitted : String) : Bool :=
  if Playex.containsDelim stored.data then
    decide (answer_to_set submitted = answer_to_set stored)
  else
    decide (normalize_answer submitted = normalize_answer stored)

end Services

namespace MainRev

/-- _normalize_answer from playex/main.py: strip, lower-case, and remove
space characters only (str.replace of a space by the empty string touches
no other whitespace and does not unify commas with periods). -/
def normalize_chars (l : List Char) : List Char :=
  ((Playex.pyStrip l).map Playex.pyLowerChar).filter (fun c => !(c = ' '))

/-- String-level wrapper of `normalize_chars`. -/
def normalize_answer (s : String) : String :=
  ⟨normalize_chars s.data⟩

/-- _answer_to_set from playex/main.py: strip the whole string, split on
semicolons and commas, keep the fragments that are nonempty after
stripping (`if p.strip()`), normalize each and collect into a set. -/
def answer_to_set (s : String) : Finset String :=
  (((Playex.splitDelims (Playex.pyStrip s.data)).filter
      (fun p => !(Playex.pyStrip p).isEmpty)).map
    (fun p => (⟨normalize_chars p⟩ : String))).toFinset

/-- The grading expression of solve_problem (playex/main.py lines 640-643
and 687-690), using the helper functions of main.py. -/
def grade (stored submitted : String) : Bool :=
  if Playex.containsDelim stored.data then
    decide (answer_to_set submitted = answer_to_set stored)
  else
    decide (normalize_answer submitted = normalize_answer stored)

end MainRev

namespace Playex

/-- A row of the problems table (playex/models.py).  Only the columns the
grading core reads are kept: the primary key, the canonical answer and the
point value. -/
structure Problem where
  pid : Nat
  correct_answer : String
  points : Nat
deriving DecidableEq

/-- A row of the users table (playex/models.py): primary key, the nullable
telegram and email identity columns, and the score and level counters. -/
structure User where
  uid : Nat
  tg_id : Option Nat
  email : Option String
  score : Nat
  level : Nat
deriving DecidableEq

/-- A row of the user_solutions table (playex/models.py).  The table has no
uniqueness constraint beyond the autoincrement primary key; in particular
there is none on the pair (user_id, problem_id). -/
structure Solution where
  user_id : Nat
  problem_id : Nat
  user_answer : String
  is_correct : Bool
deriving DecidableEq

/-- The relational store: the three tables the grading core touches. -/
structure DB where
  users : List User
  problems : List Problem
  solutions : List Solution
deriving DecidableEq

/-- The response dictionary both revisions build for a grading call.
The already-solved branch omits the correct_answer key, which is modelled
as `none`. -/
structure SolveResult where
  correct : Bool
  already_solved : Bool
  correct_answer : Option String
  points_earned : Nat
  new_score : Nat
deriving DecidableEq

/-- select(User).where(User.id == user_id) with scalars().first(). -/
def find_user (db : DB) (user_id : Nat) : Option User :=
  db.users.find? (fun u => u.uid == user_id)

/-- select(Problem).where(Problem.id == problem_id) with scalars().first(). -/
def find_problem (db : DB) (problem_id : Nat) : Option Problem :=
  db.problems.find? (fun p => p.pid == problem_id)

end Playex

namespace Services

open Playex

/-- has_user_solved_problem from playex/services.py: is there a solution
row for this user and problem with is_correct set. -/
def has_user_solved_problem (db : DB) (user_id problem_id : Nat) : Bool :=
  db.solutions.any
    (fun s => s.user_id == user_id && s.problem_id == problem_id && s.is_correct)

/-- The count of correct solution rows of a user, as computed by
get_user_stats (playex/services.py): count of user_solutions rows with this
user_id and is_correct set. -/
def solved_count (db : DB) (user_id : Nat) : Nat :=
  (db.solutions.filter (fun s => s.user_id == user_id && s.is_correct)).length

/-- The body of check_solution after the already-solved guard
(playex/services.py lines 201-235): fetch the problem and the user, grade,
build the solution row, and commit the row insert together with the
conditional score and level update as one transaction, which the embedding
renders as one state transition.  The guard read itself is in
`check_solution`; it is split off because the source runs it in its own
session, before this transaction. -/
def grade_and_write (db : DB) (user_id problem_id : Nat) (user_answer : String) :
    Option SolveResult × DB :=
  match find_problem db problem_id, find_user db user_id with
  | some problem, some user =>
    let is_correct := grade problem.correct_answer user_answer
    let new_score := user.score + problem.points
    let user' :=
      if is_correct then
        { user with score := new_score, level := new_score / 100 + 1 }
      else user
    let sol : Solution :=
      { user_id := user_id, problem_id := problem_id,
        user_answer := user_answer, is_correct := is_correct }
    (some { correct := is_correct
            already_solved := false
            correct_answer := if is_correct then none else some problem.correct_answer
            points_earned := if is_correct then problem.points else 0
            new_score := user'.score },
     { db with
         users :=
           if is_correct then
             db.users.map (fun u => if u.uid == user_id then user' else u)
           else db.users
         solutions := db.solutions ++ [sol] })
  | _, _ => (none, db)

/-- check_solution from playex/services.py: the already-solved guard
(lines 190-199), then the grade-and-write transaction.  The error
dictionary of line 205 is rendered as `none`. -/
def check_solution (db : DB) (user_id problem_id : Nat) (user_answer : String) :
    Option SolveResult × DB :=
  if has_user_solved_problem db user_id problem_id then
    (some { correct := false, already_solved := true, correct_answer := none,
            points_earned := 0, new_score := 0 }, db)
  else
    grade_and_write db user_id problem_id user_answer

end Services

namespace MainRev

open Playex

/-- The identity headers of a request to playex/main.py: X-TG-ID or
X-EMAIL.  A request carrying neither is a guest request. -/
inductive Ident where
  | tg (id : Nat)
  | email (e : String)
deriving DecidableEq

/-- select(User).where(User.tg_id == tg_id) with scalars().first(). -/
def find_user_by_tg (db : DB) (t : Nat) : Option User :=
  db.users.find? (fun u => u.tg_id == some t)

/-- select(User).where(User.email == email) with scalars().first(). -/
def find_user_by_email (db : DB) (e : String) : Option User :=
  db.users.find? (fun u => u.email == some e)

/-- Identity resolution of playex/main.py (if tg_id ... elif email ...). -/
def resolve_user (db : DB) (ident : Ident) : Option User :=
  match ident with
  | .tg t => find_user_by_tg db t
  | .email e => find_user_by_email db e

/-- solve_problem from playex/main.py (lines 616-716): strip the submitted
answer, fetch the problem (404 when absent, rendered as `none`), then
either the guest branch (grade only, no write), or the authenticated
branch: resolve the user (404 when absent), short-circuit when a correct
solution row already exists, otherwise grade, append the solution row and,
when correct, increment the level by one.  This revision never touches the
score column and always reports points_earned equal to zero and new_score
equal to the level counter. -/
def solve_problem (db : DB) (ident : Option Ident) (problem_id : Nat)
    (user_answer : String) : Option SolveResult × DB :=
  let ua : String := ⟨Playex.pyStrip user_answer.data⟩
  match find_problem db problem_id with
  | none => (none, db)
  | some problem =>
    match ident with
    | none =>
      let is_correct := grade problem.correct_answer ua
      (some { correct := is_correct, already_solved := false,
              correct_answer := if is_correct then none else some problem.correct_answer,
              points_earned := 0, new_score := 0 }, db)
    | some key =>
      match resolve_user db key with
      | none => (none, db)
      | some user =>
        if db.solutions.any (fun s =>
            s.user_id == user.uid && s.problem_id == problem_id && s.is_correct) then
          (some { correct := false, already_solved := true, correct_answer := none,
                  points_earned := 0, new_score := user.level }, db)
        else
          let is_correct := grade problem.correct_answer ua
          let sol : Solution :=
            { user_id := user.uid, problem_id := problem_id,
              user_answer := ua, is_correct := is_correct }
          let user' := if is_correct then { user with level := user.level + 1 } else user
          (some { correct := is_correct, already_solved := false,
                  correct_answer := if is_correct then none else some problem.correct_answer,
                  points_earned := 0, new_score := user'.level },
           { db with
               users :=
                 if is_correct then
                   db.users.map (fun u => if u.uid == user.uid then user' else u)
                 else db.users
               solutions := db.solutions ++ [sol] })

end MainRev

namespace Playex

theorem toNat_ofNat_valid {n : Nat} (h : n.isValidChar) : (Char.ofNat n).toNat = n := by
  rw [Char.ofNat, dif_pos h]
  rfl

theorem pyLowerChar_toNat (c : Char) :
    (pyLowerChar c).toNat =
      if 65 ≤ c.toNat ∧ c.toNat ≤ 90 then c.toNat + 32 else c.toNat := by
  by_cases h : 65 ≤ c.toNat ∧ c.toNat ≤ 90
  · rw [pyLowerChar, if_pos h, if_pos h]
    exact toNat_ofNat_valid (Or.inl (by omega))
  · rw [pyLowerChar, if_neg h, if_neg h]

theorem pyLowerChar_eq_self {c : Char} (h : ¬(65 ≤ c.toNat ∧ c.toNat ≤ 90)) :
    pyLowerChar c = c := by
  rw [pyLowerChar, if_neg h]

theorem pyLowerChar_not_upper (c : Char) :
    ¬(65 ≤ (pyLowerChar c).toNat ∧ (pyLowerChar c).toNat ≤ 90) := by
  rw [pyLowerChar_toNat]
  by_cases h : 65 ≤ c.toNat ∧ c.toNat ≤ 90
  · rw [if_pos h]; omega
  · rw [if_neg h]; exact h

theorem pyLowerChar_idem (c : Char) : pyLowerChar (pyLowerChar c) = pyLowerChar c :=
  pyLowerChar_eq_self (pyLowerChar_not_upper c)

theorem dropWhile_eq_self_of (p : Char → Bool) (l : List Char)
    (h : ∀ c ∈ l, p c = false) : l.dropWhile p = l := by
  cases l with
  | nil => rfl
  | cons a t => simp [List.dropWhile_cons, h a (List.mem_cons_self a t)]

theorem pyStrip_eq_self {l : List Char} (h : ∀ c ∈ l, pyIsSpace c = false) :
    pyStrip l = l := by
  rw [pyStrip, dropWhile_eq_self_of _ _ h,
    dropWhile_eq_self_of _ _ (fun c hc => h c (List.mem_reverse.mp hc)),
    List.reverse_reverse]

theorem mem_of_mem_pyStrip {l : List Char} {c : Char} (h : c ∈ pyStrip l) : c ∈ l := by
  rw [pyStrip, List.mem_reverse] at h
  have h2 := (List.dropWhile_sublist _).subset h
  rw [List.mem_reverse] at h2
  exact (List.dropWhile_sublist _).subset h2

theorem map_eq_self_of (f : Char → Char) (l : List Char) (h : ∀ c ∈ l, f c = c) :
    l.map f = l := by
  induction l with
  | nil => rfl
  | cons a t ih =>
    rw [List.map_cons, h a (List.mem_cons_self a t),
      ih (fun c hc => h c (List.mem_cons_of_mem a hc))]

end Playex

namespace Services

open Playex

/-- Every character of a normalized answer is a fixed point of the three
character transformations of the normalizer: it is not whitespace, it is
not upper case and it is not a comma. -/
theorem normalize_chars_mem {l : List Char} {c : Char} (h : c ∈ normalize_chars l) :
    pyIsSpace c = false ∧ pyLowerChar c = c ∧ (if c = ',' then '.' else c) = c := by
  rw [normalize_chars] at h
  have h1 := mem_of_mem_pyStrip h
  obtain ⟨b, hb, rfl⟩ := List.mem_map.mp h1
  have hbf := List.mem_filter.mp hb
  obtain ⟨a, _, rfl⟩ := List.mem_map.mp hbf.1
  have hsp : pyIsSpace (pyLowerChar a) = false := by simpa using hbf.2
  by_cases hc : pyLowerChar a = ','
  · rw [if_pos hc]
    refine ⟨by decide, by decide, by decide⟩
  · rw [if_neg hc]
    exact ⟨hsp, pyLowerChar_idem a, if_neg hc⟩

theorem normalize_chars_idem (l : List Char) :
    normalize_chars (normalize_chars l) = normalize_chars l := by
  have key : ∀ c ∈ normalize_chars l,
      pyIsSpace c = false ∧ pyLowerChar c = c ∧ (if c = ',' then '.' else c) = c :=
    fun _ hc => normalize_chars_mem hc
  conv_lhs => rw [normalize_chars]
  rw [map_eq_self_of _ _ (fun c hc => (key c hc).2.1),
    List.filter_eq_self.mpr (fun c hc => by simp [(key c hc).1]),
    map_eq_self_of _ _ (fun c hc => (key c hc).2.2),
    pyStrip_eq_self (fun c hc => (key c hc).1)]

end Services

/-- Claim C1: when the stored answer contains a semicolon or a comma,
check_solution grades a submission as correct exactly when the alternative
set of the submission equals the alternative set of the stored answer (set
equality, hence order- and duplicate-independent, and refused on strict
subsets and supersets); in particular the stored answer 2;3 accepts the
submission 3, 2 and rejects the submissions 2 and 2;3;4. -/
theorem claim_C1_set_mode_grading :
    (∀ stored submitted : String, Playex.containsDelim stored.data = true →
      (Services.grade stored submitted = true ↔
        Services.answer_to_set submitted = Services.answer_to_set stored)) ∧
    Services.grade "2;3" "3, 2" = true ∧
    Services.grade "2;3" "2" = false ∧
    Services.grade "2;3" "2;3;4" = false := by
  refine ⟨?_, by decide, by decide, by decide⟩
  intro stored submitted h
  simp [Services.grade, h]

theorem claim_C1_set_mode_grading_witness :
    Playex.containsDelim ("2;3" : String).data = true ∧
    (Services.grade "2;3" "3, 2" = true ↔
      Services.answer_to_set "3, 2" = Services.answer_to_set "2;3") :=
  ⟨by decide, claim_C1_set_mode_grading.1 "2;3" "3, 2" (by decide)⟩

/-- Claim C4, counterexample: the claim asserts grade("3,5", "3.5") = true,
but a stored answer containing a comma is graded in set mode, where the
alternative sets of 3,5 and 3.5 differ, so the call returns false. -/
theorem claim_C4_counterexample : Services.grade "3,5" "3.5" = false := by decide

/-- Claim C4 as amended: single-mode grading (stored answer without a
semicolon or a comma) compares the normalized strings, and the normalizer
replaces commas by periods in the submitted answer, so grade("3.5", "3,5")
= true while grade("30", "3.0") = false.  A stored answer containing a
comma never reaches single mode. -/
theorem claim_C4_amended_single_mode :
    (∀ stored submitted : String, Playex.containsDelim stored.data = false →
      (Services.grade stored submitted = true ↔
        Services.normalize_answer submitted = Services.normalize_answer stored)) ∧
    Services.grade "3.5" "3,5" = true ∧
    Services.grade "30" "3.0" = false := by
  refine ⟨?_, by decide, by decide⟩
  intro stored submitted h
  simp [Services.grade, h]

theorem claim_C4_amended_single_mode_witness :
    Playex.containsDelim ("3.5" : String).data = false ∧
    (Services.grade "3.5" "3,5" = true ↔
      Services.normalize_answer "3,5" = Services.normalize_answer "3.5") :=
  ⟨by decide, claim_C4_amended_single_mode.1 "3.5" "3,5" (by decide)⟩

/-- Claim C5: the normalizer of services.py is idempotent, and it trims,
lower-cases and removes internal whitespace, so it identifies
"  O(Log N) " with "o(logn)".  The function is total and deterministic by
construction of the embedding: it is a plain function on strings. -/
theorem claim_C5_normalize_idempotent :
    (∀ s : String,
      Services.normalize_answer (Services.normalize_answer s) =
        Services.normalize_answer s) ∧
    Services.normalize_answer "  O(Log N) " = Services.normalize_answer "o(logn)" := by
  refine ⟨?_, by decide⟩
  intro s
  exact congrArg String.mk (Services.normalize_chars_idem s.data)

/-- Claim C10, counterexample: the two revisions of the normalizer are not
extensionally equal: on the one-character string consisting of a comma,
services.py returns a period and main.py returns the comma unchanged. -/
theorem claim_C10_counterexample :
    ¬ (MainRev.normalize_answer "," = Services.normalize_answer ",") := by decide

/-- Claim C10 as amended: the two revisions of the grading core differ.
The services.py normalizer replaces commas by periods and removes every
whitespace character, while the main.py normalizer leaves commas alone and
removes only spaces; the services.py alternative-set function keeps a
blank fragment (as the empty string) while main.py drops it; consequently
the revisions grade some submissions differently in both modes. -/
theorem claim_C10_revisions_differ :
    Services.normalize_answer "," = "." ∧
    MainRev.normalize_answer "," = "," ∧
    Services.normalize_answer "a\tb" = "ab" ∧
    MainRev.normalize_answer "a\tb" = "a\tb" ∧
    Services.answer_to_set "2; ;3" = {"2", "", "3"} ∧
    MainRev.answer_to_set "2; ;3" = {"2", "3"} ∧
    Services.grade "3.5" "3,5" = true ∧
    MainRev.grade "3.5" "3,5" = false ∧
    Services.grade "2;3" "2; ;3" = false ∧
    MainRev.grade "2;3" "2; ;3" = true := by decide

/-- A store with one user (id 7, score 0, level 1), the quadratic-equation
problem of init_db (answer 2;3, worth 10 points), and no solutions yet. -/
def dbFresh : Playex.DB :=
  { users := [⟨7, some 77, none, 0, 1⟩],
    problems := [⟨1, "2;3", 10⟩],
    solutions := [] }

/-- The same store after user 7 has been credited for problem 1: score 10,
and one correct solution row for the pair. -/
def dbSolved : Playex.DB :=
  { users := [⟨7, some 77, none, 10, 1⟩],
    problems := [⟨1, "2;3", 10⟩],
    solutions := [⟨7, 1, "3;2", true⟩] }

namespace Playex

/-- Replacing the user row keyed by its id: the lookup afterwards returns
the replacement, provided a row with that id was found before and the
replacement keeps the id. -/
theorem find?_update_users (l : List User) (uid : Nat) (u u' : User)
    (hu : l.find? (fun x => x.uid == uid) = some u) (h' : u'.uid = uid) :
    (l.map (fun x => if x.uid == uid then u' else x)).find?
      (fun x => x.uid == uid) = some u' := by
  induction l with
  | nil => simp at hu
  | cons a t ih =>
    by_cases ha : (a.uid == uid) = true
    · rw [List.map_cons, if_pos ha]
      rw [List.find?_cons_of_pos _ (by simp [h'])]
    · rw [List.map_cons, if_neg ha]
      rw [List.find?_cons_of_neg _ (by simpa using ha)]
      rw [List.find?_cons_of_neg _ (by simpa using ha)] at hu
      exact ih hu

end Playex

/-- Claim C2: once a correct solution row exists for a (user, problem)
pair, any later submission for that pair is answered with
already_solved = true and points_earned = 0, and the store is returned
unchanged, so the score, the level and the solved count are never
incremented again for that pair. -/
theorem claim_C2_single_credit (db : Playex.DB) (user_id problem_id : Nat)
    (user_answer : String)
    (h : Services.has_user_solved_problem db user_id problem_id = true) :
    Services.check_solution db user_id problem_id user_answer =
      (some { correct := false, already_solved := true, correct_answer := none,
              points_earned := 0, new_score := 0 }, db) := by
  simp [Services.check_solution, h]

theorem claim_C2_single_credit_witness :
    Services.check_solution dbSolved 7 1 "2;3" =
      (some { correct := false, already_solved := true, correct_answer := none,
              points_earned := 0, new_score := 0 }, dbSolved) :=
  claim_C2_single_credit dbSolved 7 1 "2;3" (by decide)

/-- Claim C3, counterexample: the claim also covers the solve_problem path
of main.py, and there a first correct authenticated submission is not
credited as the claim states.  On a fresh store, user 7 (score 0, level 1)
submits a correct answer to the 10-point problem 1: the call reports
points_earned = 0 instead of 10 and new_score = 2 (the level counter)
instead of the updated score, and the user row afterwards still has
score 0 — the revision only increments the level counter by one. -/
theorem claim_C3_counterexample :
    (MainRev.solve_problem dbFresh (some (MainRev.Ident.tg 77)) 1 "3;2").1 =
      some { correct := true, already_solved := false, correct_answer := none,
             points_earned := 0, new_score := 2 } ∧
    Playex.find_user
        (MainRev.solve_problem dbFresh (some (MainRev.Ident.tg 77)) 1 "3;2").2 7 =
      some ⟨7, some 77, none, 0, 2⟩ ∧
    ¬ ((MainRev.solve_problem dbFresh (some (MainRev.Ident.tg 77)) 1 "3;2").1 =
        some { correct := true, already_solved := false, correct_answer := none,
               points_earned := 10, new_score := 10 }) := by decide

/-- Claim C3 as amended: for the check_solution revision of the credit
operation (services.py), a graded-correct submission with no prior
credited record for the pair is credited in one transition: the result
reports correct = true, points_earned equal to the point value of the
problem and new_score equal to the incremented score; the solution row is
appended, the user row gets the incremented score with the level
recomputed by the policy function, and the solved count grows by one.
The row insert and the user update happen in the same transition, which
models the single transaction of the source.  The solve_problem revision
of main.py does not credit this way: as the counterexample shows, it
leaves the score untouched, increments the level counter by one, and
reports points_earned = 0 and new_score equal to the level counter. -/
theorem claim_C3_credit_effects (db : Playex.DB) (user_id problem_id : Nat)
    (user_answer : String) (u : Playex.User) (p : Playex.Problem)
    (hns : Services.has_user_solved_problem db user_id problem_id = false)
    (hp : Playex.find_problem db problem_id = some p)
    (hu : Playex.find_user db user_id = some u)
    (hg : Services.grade p.correct_answer user_answer = true) :
    (Services.check_solution db user_id problem_id user_answer).1 =
      some { correct := true, already_solved := false, correct_answer := none,
             points_earned := p.points, new_score := u.score + p.points } ∧
    (Services.check_solution db user_id problem_id user_answer).2.solutions =
      db.solutions ++ [⟨user_id, problem_id, user_answer, true⟩] ∧
    Playex.find_user (Services.check_solution db user_id problem_id user_answer).2
        user_id =
      some { u with score := u.score + p.points,
                    level := (u.score + p.points) / 100 + 1 } ∧
    Services.solved_count (Services.check_solution db user_id problem_id user_answer).2
        user_id =
      Services.solved_count db user_id + 1 := by
  have huid : u.uid = user_id := by
    have := List.find?_some hu
    simpa using this
  simp only [Services.check_solution, hns, Bool.false_eq_true, if_false,
    Services.grade_and_write, hp, hu, hg, if_true]
  refine ⟨trivial, trivial, ?_, ?_⟩
  · exact Playex.find?_update_users db.users user_id u _ hu huid
  · simp [Services.solved_count, List.filter_append]

theorem claim_C3_credit_effects_witness :
    (Services.check_solution dbFresh 7 1 "3;2").1 =
      some { correct := true, already_solved := false, correct_answer := none,
             points_earned := 10, new_score := 10 } ∧
    (Services.check_solution dbFresh 7 1 "3;2").2.solutions =
      dbFresh.solutions ++ [⟨7, 1, "3;2", true⟩] ∧
    Playex.find_user (Services.check_solution dbFresh 7 1 "3;2").2 7 =
      some ⟨7, some 77, none, 10, 1⟩ ∧
    Services.solved_count (Services.check_solution dbFresh 7 1 "3;2").2 7 =
      Services.solved_count dbFresh 7 + 1 :=
  claim_C3_credit_effects dbFresh 7 1 "3;2" ⟨7, some 77, none, 0, 1⟩ ⟨1, "2;3", 10⟩
    (by decide) (by decide) (by decide) (by decide)

/-- Claim C6: whenever check_solution changes the score of a user, the
level stored with it is recomputed as score divided by one hundred,
rounded down, plus one. -/
theorem claim_C6_level_policy (db : Playex.DB) (user_id problem_id : Nat)
    (user_answer : String) (u u' : Playex.User)
    (hu : Playex.find_user db user_id = some u)
    (hu' : Playex.find_user
      (Services.check_solution db user_id problem_id user_answer).2 user_id = some u')
    (hch : u'.score ≠ u.score) :
    u'.level = u'.score / 100 + 1 := by
  have huid : u.uid = user_id := by
    have := List.find?_some hu
    simpa using this
  by_cases hs : Services.has_user_solved_problem db user_id problem_id = true
  · rw [Services.check_solution, if_pos hs] at hu'
    rw [hu] at hu'
    cases hu'
    exact absurd rfl hch
  · rw [Services.check_solution, if_neg hs] at hu'
    rw [Services.grade_and_write] at hu'
    cases hp : Playex.find_problem db problem_id with
    | none =>
      rw [hp] at hu'
      rw [hu] at hu'
      cases hu'
      exact absurd rfl hch
    | some p =>
      rw [hp, hu] at hu'
      cases hg : Services.grade p.correct_answer user_answer with
      | false =>
        simp only [hg, if_false, Bool.false_eq_true] at hu'
        rw [Playex.find_user] at hu'
        rw [Playex.find_user, hu'] at hu
        cases hu
        exact absurd rfl hch
      | true =>
        simp only [hg, if_true] at hu'
        have := Playex.find?_update_users db.users user_id u
          { u with score := u.score + p.points,
                   level := (u.score + p.points) / 100 + 1 } hu huid
        rw [Playex.find_user] at hu'
        rw [this] at hu'
        cases hu'
        rfl

theorem claim_C6_level_policy_witness : (1 : Nat) = 10 / 100 + 1 :=
  claim_C6_level_policy dbFresh 7 1 "3;2" ⟨7, some 77, none, 0, 1⟩
    ⟨7, some 77, none, 10, 1⟩ (by decide) (by decide) (by decide)

/-- Claim C7: a guest submission (no identity headers) never changes the
store, whatever the submitted answer and whether or not it is correct: the
call only grades, and any result it returns carries already_solved =
false, points_earned = 0 and new_score = 0. -/
theorem claim_C7_guest_readonly (db : Playex.DB) (problem_id : Nat)
    (user_answer : String) :
    (MainRev.solve_problem db none problem_id user_answer).2 = db ∧
    ∀ r : Playex.SolveResult,
      (MainRev.solve_problem db none problem_id user_answer).1 = some r →
      r.already_solved = false ∧ r.points_earned = 0 ∧ r.new_score = 0 := by
  rw [MainRev.solve_problem]
  cases hp : Playex.find_problem db problem_id with
  | none => exact ⟨rfl, fun r h => by simp at h⟩
  | some p =>
    refine ⟨rfl, fun r h => ?_⟩
    simp only [Option.some_inj] at h
    subst h
    exact ⟨rfl, rfl, rfl⟩

theorem claim_C7_guest_readonly_witness :
    (MainRev.solve_problem dbFresh none 1 "3;2").2 = dbFresh ∧
    (({ correct := true, already_solved := false, correct_answer := none,
        points_earned := 0, new_score := 0 } : Playex.SolveResult).already_solved = false ∧
     ({ correct := true, already_solved := false, correct_answer := none,
        points_earned := 0, new_score := 0 } : Playex.SolveResult).points_earned = 0 ∧
     ({ correct := true, already_solved := false, correct_answer := none,
        points_earned := 0, new_score := 0 } : Playex.SolveResult).new_score = 0) :=
  ⟨(claim_C7_guest_readonly dbFresh 1 "3;2").1,
   (claim_C7_guest_readonly dbFresh 1 "3;2").2
     { correct := true, already_solved := false, correct_answer := none,
       points_earned := 0, new_score := 0 } (by decide)⟩

/-- Claim C8, counterexample: a submission for a pair that already has a
correct solution row is short-circuited by the guard of check_solution:
the store is returned with the solutions log unchanged, so no record is
appended for that attempt, contradicting the claim that a record is
appended for every authenticated submission including already-solved
pairs. -/
theorem claim_C8_counterexample :
    Services.has_user_solved_problem dbSolved 7 1 = true ∧
    (Services.check_solution dbSolved 7 1 "2;3").2.solutions = dbSolved.solutions ∧
    ¬ ((Services.check_solution dbSolved 7 1 "2;3").2.solutions.length =
        dbSolved.solutions.length + 1) := by decide

/-- Claim C8 as amended: on the authenticated path, a submission for an
existing user and problem with no prior correct record for the pair is
graded and appends exactly one solution row, recording the submitted
answer and the grading outcome; a submission for an already-solved pair
appends nothing.  The solutions log is append-only in every case: a call
either leaves it unchanged or appends a single row, so existing rows are
never updated or deleted. -/
theorem claim_C8_amended_append :
    (∀ (db : Playex.DB) (user_id problem_id : Nat) (user_answer : String)
        (u : Playex.User) (p : Playex.Problem),
      Services.has_user_solved_problem db user_id problem_id = false →
      Playex.find_problem db problem_id = some p →
      Playex.find_user db user_id = some u →
      (Services.check_solution db user_id problem_id user_answer).2.solutions =
        db.solutions ++
          [⟨user_id, problem_id, user_answer,
            Services.grade p.correct_answer user_answer⟩]) ∧
    (∀ (db : Playex.DB) (user_id problem_id : Nat) (user_answer : String),
      (Services.check_solution db user_id problem_id user_answer).2.solutions =
        db.solutions ∨
      ∃ s : Playex.Solution,
        (Services.check_solution db user_id problem_id user_answer).2.solutions =
          db.solutions ++ [s]) := by
  constructor
  · intro db user_id problem_id user_answer u p hns hp hu
    simp [Services.check_solution, hns, Services.grade_and_write, hp, hu]
  · intro db user_id problem_id user_answer
    by_cases hs : Services.has_user_solved_problem db user_id problem_id = true
    · left
      simp [Services.check_solution, hs]
    · rw [Services.check_solution, if_neg hs, Services.grade_and_write]
      cases hp : Playex.find_problem db problem_id with
      | none => exact Or.inl rfl
      | some p =>
        cases hu : Playex.find_user db user_id with
        | none => exact Or.inl rfl
        | some u => exact Or.inr ⟨_, rfl⟩

theorem claim_C8_amended_append_witness :
    Services.has_user_solved_problem dbFresh 7 1 = false ∧
    (Services.check_solution dbFresh 7 1 "9").2.solutions =
      dbFresh.solutions ++ [⟨7, 1, "9", false⟩] :=
  ⟨by decide,
   claim_C8_amended_append.1 dbFresh 7 1 "9" ⟨7, some 77, none, 0, 1⟩ ⟨1, "2;3", 10⟩
     (by decide) (by decide) (by decide)⟩

/-- Claim C9: the code does not close the check-then-credit race the claim
requires it to close.  The already-solved guard of check_solution runs in
its own session before the write transaction, the write takes no row lock
and requests no serializable isolation, and the user_solutions table of
models.py declares no uniqueness on (user_id, problem_id).  This theorem
exhibits the racing schedule: two correct submissions for the same pair
both evaluate the guard against the initial store (both see false), then
the two grade-and-write transactions commit one after the other; both are
reported correct and credited with 10 points each, and the user, whose
score started at 0, ends with score 20 and two correct solution rows for
the one pair, instead of the single credit the claim demands. -/
theorem claim_C9_double_credit_race :
    Services.has_user_solved_problem dbFresh 7 1 = false ∧
    Services.has_user_solved_problem dbFresh 7 1 = false ∧
    (Services.grade_and_write dbFresh 7 1 "2;3").1 =
      some { correct := true, already_solved := false, correct_answer := none,
             points_earned := 10, new_score := 10 } ∧
    (Services.grade_and_write
        (Services.grade_and_write dbFresh 7 1 "2;3").2 7 1 "3;2").1 =
      some { correct := true, already_solved := false, correct_answer := none,
             points_earned := 10, new_score := 20 } ∧
    Playex.find_user
        (Services.grade_and_write
          (Services.grade_and_write dbFresh 7 1 "2;3").2 7 1 "3;2").2 7 =
      some ⟨7, some 77, none, 20, 1⟩ ∧
    Services.solved_count
        (Services.grade_and_write
          (Services.grade_and_write dbFresh 7 1 "2;3").2 7 1 "3;2").2 7 = 2 := by
  decide
